import Mathlib

/-!
Verification of `src/qr.py`, a Streamlit QR-code generator.

Shallow embedding conventions:
* The external `qrcode` library call (`qrcode.QRCode(...)`, `add_data`,
  `make(fit=True)`) is modelled as a function parameter
  `lib : String → Except String QRMatrix`: `Except.error e` models the
  library raising an exception whose message is `e`, `Except.ok m` models a
  successful symbol build producing a module matrix.  The matrix depends
  only on the payload string (`box_size`/`border` only affect rendering).
* `make_image` (library rendering of the matrix to a black-on-white raster)
  is modelled from the spec's glossary: module size is the pixel
  width/height of each block, border is the number of blank modules on all
  four sides.
* PIL's PNG serialization (`img.save(..., format="PNG")`) is modelled as a
  function parameter `save : Image → List Nat` (the PNG byte sequence).
* Streamlit calls are modelled as an effect trace (`List Effect`); the
  embedding of `main` additionally records every invocation of the
  external encoder as an `encoderCalls` log entry `(payload, box_size,
  border)`.
-/

/-- A QR module matrix, the result of `qr.make(fit=True)`: `n` modules per
side, `cell i j = true` meaning a black module.  Modelled from the spec:
the external symbol generator is not part of the repository. -/
structure QRMatrix where
  n : Nat
  cell : Nat → Nat → Bool

/-- A rendered raster image (black = `true`, white = `false`). -/
structure Image where
  width : Nat
  height : Nat
  pixel : Nat → Nat → Bool

/-- Modelled from the spec: the library's `make_image(fill_color="black",
back_color="white")`, per the glossary — each module becomes a
`box × box` pixel block and `border` blank modules surround the symbol on
all four sides. -/
def make_image (m : QRMatrix) (box : Nat) (border : Nat) : Image :=
  { width := (m.n + 2 * border) * box
    height := (m.n + 2 * border) * box
    pixel := fun x y =>
      if border * box ≤ x ∧ x < (border + m.n) * box ∧
         border * box ≤ y ∧ y < (border + m.n) * box then
        m.cell ((x - border * box) / box) ((y - border * box) / box)
      else
        false }

/-- One Streamlit UI effect, in the order the script emits them. -/
inductive Effect where
  | pageConfig (pageTitle : String) (pageIcon : String) (layout : String)
  | title (t : String)
  | markdown (t : String)
  | header (t : String)
  | textArea (label : String)
  | selectbox (label : String) (opts : List String)
  | slider (label : String) (lo : Nat) (hi : Nat) (dflt : Nat)
  | spinner (t : String)
  | imageDisplay (c : String) (widthHint : Option Nat) (useColumnWidth : Bool)
  | errorBanner (t : String)
  | infoBanner (t : String)
  | codeDisplay (t : String)
  | expanderLabel (t : String)
  | captionText (t : String)
  deriving Repr, DecidableEq

/-- `generate_qr_code(data, size, border)` from `src/qr.py` lines 8–38:
one attempt against the external library; on success the rendered image is
returned, on any exception the function itself renders
`st.error(f"Error generating QR code: {str(e)}")` and returns `None`.
Result: (returned value, effects emitted, log of library invocations). -/
def generate_qr_code (lib : String → Except String QRMatrix)
    (data : String) (size : Nat) (border : Nat) :
    Option Image × List Effect × List (String × Nat × Nat) :=
  match lib data with
  | Except.ok m =>
      (some (make_image m size border), [], [(data, size, border)])
  | Except.error e =>
      (none, [Effect.errorBanner ("Error generating QR code: " ++ e)],
       [(data, size, border)])

/-- The base64 alphabet of RFC 4648, as used by Python's
`base64.b64encode`. -/
def base64Alphabet : List Char :=
  ['A','B','C','D','E','F','G','H','I','J','K','L','M','N','O','P',
   'Q','R','S','T','U','V','W','X','Y','Z',
   'a','b','c','d','e','f','g','h','i','j','k','l','m','n','o','p',
   'q','r','s','t','u','v','w','x','y','z',
   '0','1','2','3','4','5','6','7','8','9','+','/']

/-- The base64 digit for a 6-bit value. -/
def b64Char (v : Nat) : Char := base64Alphabet.getD v '='

/-- Standard base64 encoding of a byte sequence (with `=` padding), the
behaviour of Python's `base64.b64encode`. -/
def b64encode : List Nat → List Char
  | [] => []
  | [a] =>
      [b64Char (a / 4), b64Char (a % 4 * 16), '=', '=']
  | [a, b] =>
      [b64Char (a / 4), b64Char (a % 4 * 16 + b / 16), b64Char (b % 16 * 4), '=']
  | a :: b :: c :: rest =>
      b64Char (a / 4) :: b64Char (a % 4 * 16 + b / 16) ::
      b64Char (b % 16 * 4 + c / 64) :: b64Char (c % 64) :: b64encode rest

/-- Base64 of a byte sequence as a string (`.decode()` in the source). -/
def b64Str (bs : List Nat) : String := String.mk (b64encode bs)

/-- `get_image_download_link(img, filename)` from `src/qr.py` lines 41–56:
serialize the image to PNG bytes (external PIL call, passed as `save`),
base64-encode, and wrap in an HTML anchor with a data URI. -/
def get_image_download_link (save : Image → List Nat)
    (img : Image) (filename : String) : String :=
  "<a href=\"data:image/png;base64," ++ b64Str (save img) ++
    "\" download=\"" ++ filename ++ "\">Download QR Code</a>"

/-- The anchor template exactly as the spec words it
(`<a href="data:image/png;base64,{data}" download="{filename}">...</a>`),
written from the spec for comparison with the source function. -/
def downloadLinkSpecTemplate (data : String) (filename : String) : String :=
  "<a href=\"data:image/png;base64," ++ data ++
    "\" download=\"" ++ filename ++ "\">Download QR Code</a>"

/-- The characters Python's `str.strip()` removes (ASCII whitespace). -/
def pyWhitespace : List Char := [' ', '\t', '\n', '\r', '\x0b', '\x0c']

/-- `user_input.strip()` is falsy exactly when every character is
whitespace (including the empty string). -/
def isBlankStr (s : String) : Bool :=
  s.toList.all fun c => pyWhitespace.contains c

/-- Python `str.lower()` for the ASCII labels used here. -/
def pyLower (s : String) : String := String.mk (s.toList.map Char.toLower)

/-- The selectbox options of `src/qr.py` line 92. -/
def sizeOptions : List String := ["Small", "Medium", "Large", "Extra Large"]

/-- The fixed ordered size lookup table of `src/qr.py` lines 97–102. -/
def size_mapping : List (String × Nat) :=
  [("Small", 5), ("Medium", 10), ("Large", 15), ("Extra Large", 20)]

/-- The fixed example payload of `src/qr.py` line 158. -/
def example_text : String := "Hello, World! This is a sample QR code."

/-- The widget and static-text effects emitted before the generation
branch (`src/qr.py` lines 63–116). -/
def headerFx : List Effect :=
  [Effect.pageConfig "QR Code Generator" "📱" "centered",
   Effect.title "📱 QR Code Generator",
   Effect.markdown "Generate QR codes from any text, URL, or data!",
   Effect.header "Input",
   Effect.textArea "Enter text, URL, or any data to generate QR code:",
   Effect.header "Customization",
   Effect.selectbox "QR Code Size:" sizeOptions,
   Effect.slider "Border Size:" 1 10 4,
   Effect.header "Generated QR Code"]

/-- The static footer (`src/qr.py` lines 169–184). -/
def footerFx : List Effect :=
  [Effect.markdown "---",
   Effect.markdown "### 💡 Usage Tips",
   Effect.markdown ("- **URLs**: Include `http://` or `https://` for web links\n" ++
     "- **Contact Info**: Use vCard format for contact details\n" ++
     "- **WiFi**: Use format `WIFI:T:WPA;S:network_name;P:password;;`\n" ++
     "- **Email**: Use `mailto:email@example.com`\n" ++
     "- **Phone**: Use `tel:+1234567890`"),
   Effect.markdown "### ℹ️ About",
   Effect.markdown ("This QR code generator creates high-quality QR codes " ++
     "that can be scanned by any QR code reader.\n" ++
     "The generated codes support various data types including text, URLs, " ++
     "contact information, and more.")]

/-- The Displaying block of `src/qr.py` lines 125–146, entered only when
`generate_qr_code` returned an image. -/
def displayFx (save : Image → List Nat) (img : Option Image)
    (user_input : String) (size_option : String) (border : Nat) : List Effect :=
  match img with
  | some i =>
      [Effect.imageDisplay "Your QR Code" none true,
       Effect.markdown "### Download",
       Effect.markdown (get_image_download_link save i
         ("qrcode_" ++ pyLower size_option ++ ".png")),
       Effect.infoBanner ("✅ QR Code generated successfully! Size: " ++
         size_option ++ ", Border: " ++ toString border),
       Effect.expanderLabel "Preview Input Data",
       Effect.codeDisplay user_input]
  | none => []

/-- The `try:` block of `src/qr.py` lines 119–146.  Every operation inside
it is total in this model (`generate_qr_code` catches all exceptions and
the Streamlit calls do not raise), so it always returns `Except.ok`. -/
def tryBlockFx (lib : String → Except String QRMatrix)
    (save : Image → List Nat) (user_input : String) (size_option : String)
    (border : Nat) (box_size : Nat) : Except String (List Effect) :=
  let g := generate_qr_code lib user_input box_size border
  Except.ok (Effect.spinner "Generating QR code..." :: g.2.1 ++
    displayFx save g.1 user_input size_option border)

/-- The `except Exception as e:` handler of `src/qr.py` lines 148–150. -/
def recoverFx : Except String (List Effect) → List Effect
  | Except.ok fx => fx
  | Except.error e =>
      [Effect.errorBanner ("❌ Error generating QR code: " ++ e),
       Effect.infoBanner "Please check your input and try again."]

/-- The example display of `src/qr.py` lines 160–166 (only when the
example generation succeeded). -/
def exampleFx : Option Image → List Effect
  | some _ =>
      [Effect.imageDisplay "Example QR Code" (some 300) false,
       Effect.captionText "This is what your QR code will look like"]
  | none => []

/-- One full render with the box size already looked up: the branch on
`user_input.strip()` of `src/qr.py` lines 118–166. -/
structure Render where
  effects : List Effect
  encoderCalls : List (String × Nat × Nat)

/-- The body of `main` after the size lookup (`src/qr.py` lines 115–184). -/
def renderWith (lib : String → Except String QRMatrix)
    (save : Image → List Nat) (user_input : String) (size_option : String)
    (border : Nat) (box_size : Nat) : Render :=
  if isBlankStr user_input then
    let g := generate_qr_code lib example_text 10 4
    { effects := headerFx ++
        (Effect.infoBanner "👆 Enter some text above to generate your QR code" ::
         Effect.markdown "### Example" :: g.2.1 ++ exampleFx g.1) ++ footerFx
      encoderCalls := g.2.2 }
  else
    let g := generate_qr_code lib user_input box_size border
    { effects := headerFx ++
        recoverFx (tryBlockFx lib save user_input size_option border box_size) ++
        footerFx
      encoderCalls := g.2.2 }

namespace qr

/-- `main()` of `src/qr.py` lines 59–184: look the selected label up in the
fixed table (a missing key would raise `KeyError`, impossible for the
selectbox's four options) and render.  Parameters model the session's
widget values and the two external libraries. -/
def main (lib : String → Except String QRMatrix) (save : Image → List Nat)
    (user_input : String) (size_option : String) (border : Nat) :
    Except String Render :=
  match List.lookup size_option size_mapping with
  | none => Except.error ("KeyError: " ++ size_option)
  | some box_size =>
      Except.ok (renderWith lib save user_input size_option border box_size)

end qr

/-- A stub module matrix for concrete witnesses (the external library's
actual pattern does not matter to any claim proved here). -/
def stubMatrix : QRMatrix := { n := 21, cell := fun i j => (i + j) % 2 = 0 }

/-- A stub successful external encoder, for witnesses. -/
def okLib : String → Except String QRMatrix := fun _ => Except.ok stubMatrix

/-- A stub failing external encoder, for witnesses. -/
def failLib (msg : String) : String → Except String QRMatrix :=
  fun _ => Except.error msg

/-- A stub PNG serializer, for witnesses. -/
def zeroSave : Image → List Nat := fun _ => [137, 80, 78, 71]

/-- The encoder-call log of a finished render (empty if `qr.main` raised). -/
def callsOf : Except String Render → List (String × Nat × Nat)
  | Except.ok r => r.encoderCalls
  | Except.error _ => []

/-! ## Helper lemmas -/

/-- Every selectbox option has an entry in the size table. -/
theorem lookup_size_of_mem {l : String} (h : l ∈ sizeOptions) :
    ∃ v, List.lookup l size_mapping = some v := by
  simp only [sizeOptions, List.mem_cons, List.not_mem_nil, or_false] at h
  rcases h with h | h | h | h <;> subst h <;> exact ⟨_, rfl⟩

/-- `generate_qr_code` invokes the external library exactly once, with
exactly its own arguments, whether the library succeeds or fails. -/
theorem generate_qr_code_calls (lib : String → Except String QRMatrix)
    (data : String) (s b : Nat) :
    (generate_qr_code lib data s b).2.2 = [(data, s, b)] := by
  unfold generate_qr_code; cases lib data <;> rfl

/-- On library success, `generate_qr_code` returns the rendered image,
emits no effect, and logs the single call. -/
theorem generate_qr_code_ok (lib : String → Except String QRMatrix)
    {data : String} {mat : QRMatrix} (s b : Nat) (h : lib data = Except.ok mat) :
    generate_qr_code lib data s b =
      (some (make_image mat s b), [], [(data, s, b)]) := by
  simp [generate_qr_code, h]

/-- On a library exception, `generate_qr_code` returns `none` and renders
the error banner itself. -/
theorem generate_qr_code_err (lib : String → Except String QRMatrix)
    {data e : String} (s b : Nat) (h : lib data = Except.error e) :
    generate_qr_code lib data s b =
      (none, [Effect.errorBanner ("Error generating QR code: " ++ e)],
       [(data, s, b)]) := by
  simp [generate_qr_code, h]

/-- With a label that is in the table, `qr.main` renders normally. -/
theorem main_ok (lib : String → Except String QRMatrix) (save : Image → List Nat)
    (input size_option : String) (border v : Nat)
    (hv : List.lookup size_option size_mapping = some v) :
    qr.main lib save input size_option border =
      Except.ok (renderWith lib save input size_option border v) := by
  simp [qr.main, hv]

/-! ## Claim theorems -/

/-- C1, counterexample: the claim says every encoding failure surfaces an
`EncodingError` carrying the underlying library message *to the caller* of
`generate_qr_code`.  In fact the caller-visible return value is `None` for
every failure: two failures with different underlying messages produce the
identical return value, so no message reaches the caller. -/
theorem c1_counterexample :
    (generate_qr_code (failLib "payload too long") "x" 10 4).1 =
      (generate_qr_code (failLib "invalid characters") "x" 10 4).1 ∧
    (generate_qr_code (failLib "payload too long") "x" 10 4).1 = none :=
  ⟨rfl, rfl⟩

/-- C1, amended: on every library failure, `generate_qr_code` itself
displays an error banner carrying the underlying message (so the failure
is user-visible and never silently swallowed, and the render cycle does
not crash), returns `None` to its caller instead of raising, and makes
exactly one library attempt (no automatic retry). -/
theorem c1_failure_displayed_not_raised (lib : String → Except String QRMatrix)
    (data : String) (size border : Nat) (e : String)
    (h : lib data = Except.error e) :
    (generate_qr_code lib data size border).1 = none ∧
    (generate_qr_code lib data size border).2.1 =
      [Effect.errorBanner ("Error generating QR code: " ++ e)] ∧
    (generate_qr_code lib data size border).2.2 = [(data, size, border)] := by
  simp [generate_qr_code, h]

/-- C1, witness: the amended claim at a concrete failing library. -/
theorem c1_failure_displayed_not_raised_witness :
    (generate_qr_code (failLib "boom") "x" 10 4).1 = none ∧
    (generate_qr_code (failLib "boom") "x" 10 4).2.1 =
      [Effect.errorBanner ("Error generating QR code: " ++ "boom")] ∧
    (generate_qr_code (failLib "boom") "x" 10 4).2.2 = [("x", 10, 4)] :=
  c1_failure_displayed_not_raised (failLib "boom") "x" 10 4 "boom" rfl

/-- C2, counterexample: the claim says that on an empty payload the
Presentation Layer never invokes the encoder.  With the empty payload the
encoder-call log of a full render is not empty: the example branch invokes
the encoder once, with the fixed example payload. -/
theorem c2_counterexample :
    callsOf (qr.main okLib zeroSave "" "Medium" 4) = [(example_text, 10, 4)] ∧
    callsOf (qr.main okLib zeroSave "" "Medium" 4) ≠ [] :=
  ⟨rfl, by decide⟩

/-- C2, amended: on an empty or whitespace-only payload the encoder is
never invoked with the user payload; it is invoked exactly once, with the
fixed example payload at module size 10 and border 4, and the placeholder
instructions plus the example section are shown. -/
theorem c2_empty_branch_example_only (lib : String → Except String QRMatrix)
    (save : Image → List Nat) (input size_option : String) (border : Nat)
    (hmem : size_option ∈ sizeOptions) (hblank : isBlankStr input = true) :
    ∃ r, qr.main lib save input size_option border = Except.ok r ∧
      r.encoderCalls = [(example_text, 10, 4)] ∧
      (∀ c ∈ r.encoderCalls, c.1 ≠ input) ∧
      Effect.infoBanner "👆 Enter some text above to generate your QR code"
        ∈ r.effects ∧
      Effect.markdown "### Example" ∈ r.effects := by
  obtain ⟨v, hv⟩ := lookup_size_of_mem hmem
  refine ⟨renderWith lib save input size_option border v,
    main_ok lib save input size_option border v hv, ?_, ?_, ?_, ?_⟩
  · simp [renderWith, hblank, generate_qr_code_calls]
  · intro c hc
    simp [renderWith, hblank, generate_qr_code_calls] at hc
    subst hc
    intro heq
    rw [← heq] at hblank
    exact absurd hblank (by decide)
  · simp [renderWith, hblank, headerFx]
  · simp [renderWith, hblank, headerFx]

/-- C2, witness: the amended claim at a whitespace-only payload. -/
theorem c2_empty_branch_example_only_witness :
    ∃ r, qr.main okLib zeroSave "  " "Small" 3 = Except.ok r ∧
      r.encoderCalls = [(example_text, 10, 4)] ∧
      (∀ c ∈ r.encoderCalls, c.1 ≠ "  ") ∧
      Effect.infoBanner "👆 Enter some text above to generate your QR code"
        ∈ r.effects ∧
      Effect.markdown "### Example" ∈ r.effects :=
  c2_empty_branch_example_only okLib zeroSave "  " "Small" 3 (by decide) (by decide)

/-- C3: when the library raises inside `generate_qr_code`, the function
returns `None` instead of raising (for any size/border), the error banner
is rendered by `generate_qr_code` itself, the caller's handler in `main`
(the "check your input and try again" hint) is never reached, and the
Displaying branch is skipped entirely: no image, no download section, no
input preview appear in the render. -/
theorem c3_encoder_failure_contained (lib : String → Except String QRMatrix)
    (save : Image → List Nat) (input size_option : String) (border : Nat)
    (e : String) (hmem : size_option ∈ sizeOptions)
    (hne : isBlankStr input = false) (herr : lib input = Except.error e) :
    (∀ s b, (generate_qr_code lib input s b).1 = none) ∧
    ∃ r, qr.main lib save input size_option border = Except.ok r ∧
      Effect.errorBanner ("Error generating QR code: " ++ e) ∈ r.effects ∧
      Effect.infoBanner "Please check your input and try again." ∉ r.effects ∧
      (∀ c w u, Effect.imageDisplay c w u ∉ r.effects) ∧
      Effect.markdown "### Download" ∉ r.effects ∧
      Effect.expanderLabel "Preview Input Data" ∉ r.effects := by
  obtain ⟨v, hv⟩ := lookup_size_of_mem hmem
  have hfx : (renderWith lib save input size_option border v).effects =
      headerFx ++ (Effect.spinner "Generating QR code..." ::
        Effect.errorBanner ("Error generating QR code: " ++ e) :: []) ++ footerFx := by
    simp [renderWith, hne, tryBlockFx, recoverFx, displayFx,
          generate_qr_code_err lib v border herr]
  refine ⟨fun s b => by simp [generate_qr_code, herr],
    renderWith lib save input size_option border v,
    main_ok lib save input size_option border v hv, ?_, ?_, ?_, ?_, ?_⟩
  · rw [hfx]; simp
  · rw [hfx]; simp [headerFx, footerFx]
  · intro c w u; rw [hfx]; simp [headerFx, footerFx]
  · rw [hfx]; simp [headerFx, footerFx]
  · rw [hfx]; simp [headerFx, footerFx]

/-- C3, witness: a concrete failing library on a concrete render. -/
theorem c3_encoder_failure_contained_witness :
    (∀ s b, (generate_qr_code (failLib "boom") "x" s b).1 = none) ∧
    ∃ r, qr.main (failLib "boom") zeroSave "x" "Medium" 4 = Except.ok r ∧
      Effect.errorBanner ("Error generating QR code: " ++ "boom") ∈ r.effects ∧
      Effect.infoBanner "Please check your input and try again." ∉ r.effects ∧
      (∀ c w u, Effect.imageDisplay c w u ∉ r.effects) ∧
      Effect.markdown "### Download" ∉ r.effects ∧
      Effect.expanderLabel "Preview Input Data" ∉ r.effects :=
  c3_encoder_failure_contained (failLib "boom") zeroSave "x" "Medium" 4 "boom"
    (by decide) (by decide) rfl

/-- C4: the size table is exactly the fixed ordered four-entry mapping
Small↦5, Medium↦10, Large↦15, Extra Large↦20, and for every selectable
label the box size actually passed to the encoder is exactly the table's
value for that label. -/
theorem c4_size_mapping_table (lib : String → Except String QRMatrix)
    (save : Image → List Nat) (input size_option : String) (border : Nat)
    (hmem : size_option ∈ sizeOptions) (hne : isBlankStr input = false) :
    (List.lookup "Small" size_mapping = some 5 ∧
     List.lookup "Medium" size_mapping = some 10 ∧
     List.lookup "Large" size_mapping = some 15 ∧
     List.lookup "Extra Large" size_mapping = some 20 ∧
     size_mapping =
       [("Small", 5), ("Medium", 10), ("Large", 15), ("Extra Large", 20)]) ∧
    ∃ v r, List.lookup size_option size_mapping = some v ∧
      qr.main lib save input size_option border = Except.ok r ∧
      r.encoderCalls = [(input, v, border)] := by
  obtain ⟨v, hv⟩ := lookup_size_of_mem hmem
  refine ⟨⟨rfl, rfl, rfl, rfl, rfl⟩, v,
    renderWith lib save input size_option border v, hv,
    main_ok lib save input size_option border v hv, ?_⟩
  simp [renderWith, hne, generate_qr_code_calls]

/-- C4, witness: the "Large" label on a concrete render. -/
theorem c4_size_mapping_table_witness :
    (List.lookup "Small" size_mapping = some 5 ∧
     List.lookup "Medium" size_mapping = some 10 ∧
     List.lookup "Large" size_mapping = some 15 ∧
     List.lookup "Extra Large" size_mapping = some 20 ∧
     size_mapping =
       [("Small", 5), ("Medium", 10), ("Large", 15), ("Extra Large", 20)]) ∧
    ∃ v r, List.lookup "Large" size_mapping = some v ∧
      qr.main okLib zeroSave "hello" "Large" 2 = Except.ok r ∧
      r.encoderCalls = [("hello", v, 2)] :=
  c4_size_mapping_table okLib zeroSave "hello" "Large" 2 (by decide) (by decide)

/-- C5: on the empty payload the UI invokes the encoder exactly once with
the fixed example payload "Hello, World! This is a sample QR code." at
module size 10 and border 4, and displays the example image with a width
hint of 300. -/
theorem c5_empty_input_example (lib : String → Except String QRMatrix)
    (save : Image → List Nat) (size_option : String) (border : Nat)
    (mat : QRMatrix) (hmem : size_option ∈ sizeOptions)
    (hok : lib example_text = Except.ok mat) :
    example_text = "Hello, World! This is a sample QR code." ∧
    ∃ r, qr.main lib save "" size_option border = Except.ok r ∧
      r.encoderCalls = [(example_text, 10, 4)] ∧
      Effect.imageDisplay "Example QR Code" (some 300) false ∈ r.effects ∧
      Effect.captionText "This is what your QR code will look like" ∈ r.effects := by
  obtain ⟨v, hv⟩ := lookup_size_of_mem hmem
  have hb : isBlankStr "" = true := rfl
  refine ⟨rfl, renderWith lib save "" size_option border v,
    main_ok lib save "" size_option border v hv, ?_, ?_, ?_⟩
  · simp [renderWith, hb, generate_qr_code_calls]
  · simp [renderWith, hb, generate_qr_code_ok lib 10 4 hok, exampleFx]
  · simp [renderWith, hb, generate_qr_code_ok lib 10 4 hok, exampleFx]

/-- C5, witness: the empty payload on a concrete render. -/
theorem c5_empty_input_example_witness :
    example_text = "Hello, World! This is a sample QR code." ∧
    ∃ r, qr.main okLib zeroSave "" "Medium" 4 = Except.ok r ∧
      r.encoderCalls = [(example_text, 10, 4)] ∧
      Effect.imageDisplay "Example QR Code" (some 300) false ∈ r.effects ∧
      Effect.captionText "This is what your QR code will look like" ∈ r.effects :=
  c5_empty_input_example okLib zeroSave "Medium" 4 stubMatrix (by decide) rfl

/-- C6: `get_image_download_link` produces exactly the anchor template of
the spec with the data slot holding the base64 encoding of the image's PNG
serialization, and in the Displaying state the filename passed is
`qrcode_{size_label_lowercased}.png` for the selected label. -/
theorem c6_download_link_format (lib : String → Except String QRMatrix)
    (save : Image → List Nat) (input size_option : String) (border : Nat)
    (mat : QRMatrix) (hmem : size_option ∈ sizeOptions)
    (hne : isBlankStr input = false) (hok : lib input = Except.ok mat) :
    (∀ (sv : Image → List Nat) (img : Image) (filename : String),
        get_image_download_link sv img filename =
          downloadLinkSpecTemplate (b64Str (sv img)) filename) ∧
    ∃ v r, List.lookup size_option size_mapping = some v ∧
      qr.main lib save input size_option border = Except.ok r ∧
      Effect.markdown (get_image_download_link save (make_image mat v border)
        ("qrcode_" ++ pyLower size_option ++ ".png")) ∈ r.effects := by
  obtain ⟨v, hv⟩ := lookup_size_of_mem hmem
  refine ⟨fun sv img filename => rfl, v,
    renderWith lib save input size_option border v, hv,
    main_ok lib save input size_option border v hv, ?_⟩
  simp [renderWith, hne, tryBlockFx, recoverFx, displayFx,
        generate_qr_code_ok lib v border hok]

/-- C6, witness: the "Extra Large" label on a concrete render. -/
theorem c6_download_link_format_witness :
    (∀ (sv : Image → List Nat) (img : Image) (filename : String),
        get_image_download_link sv img filename =
          downloadLinkSpecTemplate (b64Str (sv img)) filename) ∧
    ∃ v r, List.lookup "Extra Large" size_mapping = some v ∧
      qr.main okLib zeroSave "hi" "Extra Large" 4 = Except.ok r ∧
      Effect.markdown (get_image_download_link zeroSave (make_image stubMatrix v 4)
        ("qrcode_" ++ pyLower "Extra Large" ++ ".png")) ∈ r.effects :=
  c6_download_link_format okLib zeroSave "hi" "Extra Large" 4 stubMatrix
    (by decide) (by decide) rfl

/-- C7: `generate_qr_code` is deterministic — its whole result is a
function of its arguments and of the library's response for the given
payload alone (two runs whose library agrees on the payload are
bit-identical) — and it makes exactly one encoding attempt. -/
theorem c7_deterministic_single_attempt
    (lib1 lib2 : String → Except String QRMatrix) (data : String)
    (size border : Nat) (h : lib1 data = lib2 data) :
    generate_qr_code lib1 data size border =
      generate_qr_code lib2 data size border ∧
    (generate_qr_code lib1 data size border).2.2 = [(data, size, border)] :=
  ⟨by simp [generate_qr_code, h], generate_qr_code_calls lib1 data size border⟩

/-- C7, witness: a concrete payload under the stub library. -/
theorem c7_deterministic_single_attempt_witness :
    generate_qr_code okLib "https://example.com" 10 4 =
      generate_qr_code okLib "https://example.com" 10 4 ∧
    (generate_qr_code okLib "https://example.com" 10 4).2.2 =
      [("https://example.com", 10, 4)] :=
  c7_deterministic_single_attempt okLib okLib "https://example.com" 10 4 rfl

/-- C8: for a fixed payload and border, the pixel width and height of the
generated image strictly increase as the module size increases through
the selectable set {5, 10, 15, 20}. -/
theorem c8_dims_monotone_in_module_size (lib : String → Except String QRMatrix)
    (data : String) (border : Nat) (mat : QRMatrix)
    (hok : lib data = Except.ok mat) (hn : 0 < mat.n) (s1 s2 : Nat)
    (_h1 : s1 ∈ [5, 10, 15, 20]) (_h2 : s2 ∈ [5, 10, 15, 20]) (hlt : s1 < s2) :
    ∃ i1 i2, (generate_qr_code lib data s1 border).1 = some i1 ∧
      (generate_qr_code lib data s2 border).1 = some i2 ∧
      i1.width < i2.width ∧ i1.height < i2.height := by
  have hpos : 0 < mat.n + 2 * border := by omega
  refine ⟨make_image mat s1 border, make_image mat s2 border, ?_, ?_, ?_, ?_⟩
  · rw [generate_qr_code_ok lib s1 border hok]
  · rw [generate_qr_code_ok lib s2 border hok]
  · exact mul_lt_mul_of_pos_left hlt hpos
  · exact mul_lt_mul_of_pos_left hlt hpos

/-- C8, witness: module sizes 5 < 10 at border 4 under the stub library. -/
theorem c8_dims_monotone_in_module_size_witness :
    ∃ i1 i2, (generate_qr_code okLib "x" 5 4).1 = some i1 ∧
      (generate_qr_code okLib "x" 10 4).1 = some i2 ∧
      i1.width < i2.width ∧ i1.height < i2.height :=
  c8_dims_monotone_in_module_size okLib "x" 4 stubMatrix rfl (by decide)
    5 10 (by decide) (by decide) (by decide)

/-- C9: for a fixed payload and module size, raising the border from `b`
to `b + k` grows both pixel dimensions by `2·k·s` (k extra blank modules
on all four sides), every pixel of the enlarged image is the pixel of the
original image shifted by `k·s`, and the enlarged margin is entirely
blank. -/
theorem c9_border_margin_frame (lib : String → Except String QRMatrix)
    (data : String) (mat : QRMatrix) (s b k : Nat)
    (hok : lib data = Except.ok mat) :
    ∃ imgb imgbk,
      (generate_qr_code lib data s b).1 = some imgb ∧
      (generate_qr_code lib data s (b + k)).1 = some imgbk ∧
      imgbk.width = imgb.width + 2 * (k * s) ∧
      imgbk.height = imgb.height + 2 * (k * s) ∧
      (∀ x y, imgbk.pixel (x + k * s) (y + k * s) = imgb.pixel x y) ∧
      (∀ x y, (x < (b + k) * s ∨ (b + k + mat.n) * s ≤ x ∨
               y < (b + k) * s ∨ (b + k + mat.n) * s ≤ y) →
        imgbk.pixel x y = false) := by
  refine ⟨make_image mat s b, make_image mat s (b + k), ?_, ?_, ?_, ?_, ?_, ?_⟩
  · rw [generate_qr_code_ok lib s b hok]
  · rw [generate_qr_code_ok lib s (b + k) hok]
  · show (mat.n + 2 * (b + k)) * s = (mat.n + 2 * b) * s + 2 * (k * s)
    ring
  · show (mat.n + 2 * (b + k)) * s = (mat.n + 2 * b) * s + 2 * (k * s)
    ring
  · intro x y
    simp only [make_image, Nat.add_mul, Nat.add_sub_add_right]
    split_ifs <;> first | rfl | omega
  · intro x y h
    simp only [Nat.add_mul] at h
    simp only [make_image, Nat.add_mul]
    split_ifs with hc
    · omega
    · rfl

/-- C9, witness: border 4 raised by 2 at module size 5 under the stub
library. -/
theorem c9_border_margin_frame_witness :
    ∃ imgb imgbk,
      (generate_qr_code okLib "x" 5 4).1 = some imgb ∧
      (generate_qr_code okLib "x" 5 (4 + 2)).1 = some imgbk ∧
      imgbk.width = imgb.width + 2 * (2 * 5) ∧
      imgbk.height = imgb.height + 2 * (2 * 5) ∧
      (∀ x y, imgbk.pixel (x + 2 * 5) (y + 2 * 5) = imgb.pixel x y) ∧
      (∀ x y, (x < (4 + 2) * 5 ∨ (4 + 2 + stubMatrix.n) * 5 ≤ x ∨
               y < (4 + 2) * 5 ∨ (4 + 2 + stubMatrix.n) * 5 ≤ y) →
        imgbk.pixel x y = false) :=
  c9_border_margin_frame okLib "x" stubMatrix 5 4 2 rfl
